import Mathlib

set_option autoImplicit false

/-!
# Verification of the BTCagent tool-invocation envelope

Shallow embedding of the tool functions of the BTCagent repository
(`multi_tool_agent/sub_agents/crypto_market_agent.py`,
`crypto_trade_agent.py`, `market_news_agent.py`) and proofs about the
validate → normalize → external-call → shape-result envelope they share.

External services (the ccxt exchange SDK, HTTP endpoints) are modelled by
per-function environment records supplying the outcome of each external
operation; every embedded tool additionally reports which external
operations it performed, so that "no external call happens" claims are
expressible.  Python exceptions are modelled by an `Except` layer; numbers
are modelled by exact rationals.
-/

/-- Python exception values, as far as the embedded code distinguishes them.
`valueError` is raised by the `_get_exchange` helpers, `typeError` by
operations on `None`, and `other` stands for any further exception coming
out of the wrapped SDK / HTTP library (timeouts, connection errors, upstream
rejections, ...).  The payload is the text `str(e)` would produce. -/
inductive PyExc where
  | valueError (msg : String)
  | typeError (msg : String)
  | zeroDivisionError
  | timeout (msg : String)
  | connectionError (msg : String)
  | other (msg : String)
  deriving DecidableEq, Repr

/-- `str(e)` for an embedded exception value. -/
def pyStr : PyExc → String
  | .valueError msg => msg
  | .typeError msg => msg
  | .zeroDivisionError => "division by zero"
  | .timeout msg => msg
  | .connectionError msg => msg
  | .other msg => msg

/-- A fragment of Python's JSON-like values, used for the payloads that the
tool functions copy from upstream responses into their results. -/
inductive Json where
  | null
  | bool (b : Bool)
  | num (q : ℚ)
  | str (s : String)
  | arr (elems : List Json)
  | obj (fields : List (String × Json))

/-- A Python mapping is non-empty.  (Only `obj` values are ever stored in the
`metadata` slot by the embedded tools.) -/
def Json.nonempty : Json → Prop
  | .obj fields => fields ≠ []
  | _ => False

/-- The uniform result envelope `{status, data|error_message, metadata, ...}`.
Optional slots cover every top-level key used by any embedded tool; a key
that a given return statement does not mention stays `none`.
(`get_trades_data` uses the extra `exchange` / `symbol` / `error` /
`timestamp` top-level keys; the order-book and trades tools add `summary`.) -/
structure ToolResult where
  status : String
  data : Option Json := none
  error_message : Option String := none
  metadata : Option Json := none
  summary : Option Json := none
  exchange : Option String := none
  symbol : Option String := none
  error : Option String := none
  timestamp : Option ℚ := none

/-- The whitespace characters removed by Python's `str.strip()`. -/
def pyWsChar (c : Char) : Bool := c ∈ [' ', '\t', '\n', '\r', '\x0B', '\x0C']

/-- Python `s.strip()` on a `String`. -/
def pyStripStr (s : String) : String :=
  String.mk (((s.toList.dropWhile pyWsChar).reverse.dropWhile pyWsChar).reverse)

/-- Python `str.upper()` on one character (ASCII range). -/
def pyUpperCh (c : Char) : Char :=
  if 'a' ≤ c ∧ c ≤ 'z' then Char.ofNat (c.toNat - 32) else c

/-- Python `str.lower()` on one character (ASCII range). -/
def pyLowerCh (c : Char) : Char :=
  if 'A' ≤ c ∧ c ≤ 'Z' then Char.ofNat (c.toNat + 32) else c

/-- Python `s.upper()` on a `String`. -/
def pyUpperStr (s : String) : String := String.mk (s.toList.map pyUpperCh)

/-- Python `s.lower()` on a `String`. -/
def pyLowerStr (s : String) : String := String.mk (s.toList.map pyLowerCh)

/-- Python truthiness test `not s or not s.strip()` for a string `s`:
blank means empty or whitespace-only. -/
def pyBlank (s : String) : Bool := decide (s = "") || decide (pyStripStr s = "")

/-! ## Python string normalization (`strip` / `upper` / `lower`)

The tool functions normalize parameters with `s.strip().upper()` (trading
pair symbols) and `s.strip().lower()` (exchange and asset names), e.g.
`crypto_market_agent.py` lines 126-127.  To reason about these methods for
arbitrary strings we model a Python string as its list of code points. -/

/-- A Python string, as a sequence of code points. -/
abbrev PyStr := List ℕ

/-- The ASCII whitespace code points removed by `str.strip()`:
space, tab, newline, carriage return, vertical tab, form feed. -/
def pyWhitespace : List ℕ := [32, 9, 10, 13, 11, 12]

/-- Whether a code point is whitespace for `str.strip()`. -/
def pyIsSpace (c : ℕ) : Bool := c ∈ pyWhitespace

/-- `str.strip()`: drop whitespace from both ends. -/
def pyStrip (s : PyStr) : PyStr :=
  ((s.dropWhile pyIsSpace).reverse.dropWhile pyIsSpace).reverse

/-- Case-mapping of a single code point under `str.upper()` (ASCII range,
which is the range the exchange symbols live in). -/
def pyUpperChar (c : ℕ) : ℕ := if 97 ≤ c ∧ c ≤ 122 then c - 32 else c

/-- Case-mapping of a single code point under `str.lower()` (ASCII range). -/
def pyLowerChar (c : ℕ) : ℕ := if 65 ≤ c ∧ c ≤ 90 then c + 32 else c

/-- `str.upper()`. -/
def pyUpper (s : PyStr) : PyStr := s.map pyUpperChar

/-- `str.lower()`. -/
def pyLower (s : PyStr) : PyStr := s.map pyLowerChar

/-- The normalization applied to trading-pair symbols:
`symbol.strip().upper()` (`crypto_market_agent.py` line 126). -/
def normalizeSymbol (s : PyStr) : PyStr := pyUpper (pyStrip s)

/-- The normalization applied to exchange and asset names:
`exchange_name.strip().lower()` (`crypto_market_agent.py` line 127). -/
def normalizeName (s : PyStr) : PyStr := pyLower (pyStrip s)

lemma pyUpperChar_idem (c : ℕ) : pyUpperChar (pyUpperChar c) = pyUpperChar c := by
  unfold pyUpperChar
  split <;> rename_i h
  · have : ¬ (97 ≤ c - 32 ∧ c - 32 ≤ 122) := by omega
    simp only [this, if_false]
  · simp only [h, if_false]

lemma pyLowerChar_idem (c : ℕ) : pyLowerChar (pyLowerChar c) = pyLowerChar c := by
  unfold pyLowerChar
  split <;> rename_i h
  · have : ¬ (65 ≤ c + 32 ∧ c + 32 ≤ 90) := by omega
    simp only [this, if_false]
  · simp only [h, if_false]

lemma pyIsSpace_upperChar (c : ℕ) : pyIsSpace (pyUpperChar c) = pyIsSpace c := by
  unfold pyUpperChar pyIsSpace pyWhitespace
  split <;> rename_i h
  · simp only [List.mem_cons, List.not_mem_nil, or_false, decide_eq_decide]
    omega
  · rfl

lemma pyIsSpace_lowerChar (c : ℕ) : pyIsSpace (pyLowerChar c) = pyIsSpace c := by
  unfold pyLowerChar pyIsSpace pyWhitespace
  split <;> rename_i h
  · simp only [List.mem_cons, List.not_mem_nil, or_false, decide_eq_decide]
    omega
  · rfl

lemma dropWhile_idem (p : ℕ → Bool) (l : List ℕ) :
    (l.dropWhile p).dropWhile p = l.dropWhile p := by
  induction l with
  | nil => rfl
  | cons a l ih =>
    by_cases h : p a
    · simp [List.dropWhile_cons, h, ih]
    · simp [List.dropWhile_cons, h]

/-- Dropping a whitespace suffix cannot create new leading whitespace. -/
lemma dropWhile_reverse_dropWhile_reverse (p : ℕ → Bool) (l : List ℕ)
    (h : l.dropWhile p = l) :
    ((l.reverse.dropWhile p).reverse).dropWhile p = (l.reverse.dropWhile p).reverse := by
  cases l with
  | nil => rfl
  | cons a l =>
    have ha : ¬ p a := by
      have := List.dropWhile_eq_self_iff.mp h (by simp)
      simpa using this
    rw [List.reverse_cons, List.dropWhile_append]
    by_cases he : (l.reverse.dropWhile p).isEmpty
    · simp [he, List.dropWhile_cons, ha]
    · simp [he, List.dropWhile_cons, ha]

lemma pyStrip_idem (s : PyStr) : pyStrip (pyStrip s) = pyStrip s := by
  show pyStrip (((s.dropWhile pyIsSpace).reverse.dropWhile pyIsSpace).reverse) = _
  unfold pyStrip
  rw [dropWhile_reverse_dropWhile_reverse pyIsSpace _ (dropWhile_idem pyIsSpace s),
    List.reverse_reverse, dropWhile_idem]

lemma pyStrip_map_comm (f : ℕ → ℕ) (hf : ∀ c, pyIsSpace (f c) = pyIsSpace c)
    (s : PyStr) : pyStrip (s.map f) = (pyStrip s).map f := by
  have hcomp : pyIsSpace ∘ f = pyIsSpace := funext hf
  unfold pyStrip
  rw [List.dropWhile_map, hcomp, ← List.map_reverse, List.dropWhile_map, hcomp,
    ← List.map_reverse]

lemma pyUpper_idem (s : PyStr) : pyUpper (pyUpper s) = pyUpper s := by
  unfold pyUpper
  rw [List.map_map]
  exact List.map_congr_left fun c _ => pyUpperChar_idem c

lemma pyLower_idem (s : PyStr) : pyLower (pyLower s) = pyLower s := by
  unfold pyLower
  rw [List.map_map]
  exact List.map_congr_left fun c _ => pyLowerChar_idem c

lemma pyStrip_pyUpper (s : PyStr) : pyStrip (pyUpper s) = pyUpper (pyStrip s) :=
  pyStrip_map_comm pyUpperChar pyIsSpace_upperChar s

lemma pyStrip_pyLower (s : PyStr) : pyStrip (pyLower s) = pyLower (pyStrip s) :=
  pyStrip_map_comm pyLowerChar pyIsSpace_lowerChar s

/-- C7 (symbol part): normalization is idempotent. -/
theorem normalizeSymbol_idem (s : PyStr) :
    normalizeSymbol (normalizeSymbol s) = normalizeSymbol s := by
  unfold normalizeSymbol
  rw [pyStrip_pyUpper, pyStrip_idem, pyUpper_idem]

theorem normalizeName_idem (s : PyStr) :
    normalizeName (normalizeName s) = normalizeName s := by
  unfold normalizeName
  rw [pyStrip_pyLower, pyStrip_idem, pyLower_idem]

/-- C7: Parameter normalization is idempotent: applying the trading-pair
normalization (strip whitespace then upper-case) twice yields the same result
as applying it once, and likewise for the lower-casing normalization applied
to exchange and asset names. -/
theorem C7_normalization_idempotent (s : PyStr) :
    normalizeSymbol (normalizeSymbol s) = normalizeSymbol s ∧
    normalizeName (normalizeName s) = normalizeName s :=
  ⟨normalizeSymbol_idem s, normalizeName_idem s⟩

/-! ## `crypto_market_agent.py`: exchange handle and market-data tools -/

namespace CryptoMarket

/-- The `SUPPORTED_EXCHANGES` dictionary keys (`crypto_market_agent.py`). -/
def SUPPORTED_EXCHANGES : List String := ["binance", "okx"]

/-- The text of the `ValueError` raised by `_get_exchange` for an unsupported
exchange name. -/
def unsupportedMsg (exchange_name : String) : String :=
  "不支持的交易所: " ++ exchange_name ++ ". 支持的交易所: ['binance', 'okx']"

/-- Embeds `_get_exchange` of `crypto_market_agent.py`: raises `ValueError`
when the lower-cased name is not a supported exchange, otherwise yields a
fresh handle.  In this module the constructor performs no network
operation. -/
def getExchange (exchange_name : String) : Except PyExc Unit :=
  if pyLowerStr exchange_name ∈ SUPPORTED_EXCHANGES then .ok ()
  else .error (.valueError (unsupportedMsg exchange_name))

/-- The upstream ticker object, with the keys `get_ticker_data` copies out
of `exchange.fetch_ticker`'s result. -/
structure Ticker where
  last : Json
  bid : Json
  ask : Json
  high : Json
  low : Json
  openPrice : Json
  close : Json
  baseVolume : Json
  quoteVolume : Json
  change : Json
  percentage : Json
  timestamp : Json
  datetime : Json

/-- Environment of `get_ticker_data`: the outcome of the single external
operation `exchange.fetch_ticker(symbol)`, and the clock `time.time()`. -/
structure TickerEnv where
  fetch_ticker : String → Except PyExc Ticker
  now : ℚ

/-- Embeds `get_ticker_data(symbol, exchange_name)` of
`crypto_market_agent.py`.  The second component counts the external
(exchange API) operations performed. -/
def get_ticker_data (env : TickerEnv) (symbol exchange_name : String) :
    ToolResult × ℕ :=
  if pyBlank symbol then
    ({ status := "error",
       error_message := some "交易对符号不能为空，请提供如'BTC/USDT'格式的交易对" }, 0)
  else if pyBlank exchange_name then
    ({ status := "error",
       error_message := some "交易所名称不能为空，请提供支持的交易所名称" }, 0)
  else
    let symbol_normalized := pyUpperStr (pyStripStr symbol)
    let exchange_normalized := pyLowerStr (pyStripStr exchange_name)
    -- the two `except` clauses of the function
    let handler : PyExc → ToolResult := fun e =>
      match e with
      | .valueError m =>
        { status := "error",
          error_message := some ("不支持的交易所或交易对: " ++ m),
          metadata := some (.obj [("exchange", .str exchange_normalized),
                                  ("symbol", .str symbol_normalized)]) }
      | e =>
        { status := "error",
          error_message := some ("获取价格数据失败: " ++ pyStr e),
          metadata := some (.obj [("exchange", .str exchange_normalized),
                                  ("symbol", .str symbol_normalized)]) }
    match getExchange exchange_normalized with
    | .error e => (handler e, 0)
    | .ok () =>
      match env.fetch_ticker symbol_normalized with
      | .error e => (handler e, 1)
      | .ok t =>
        ({ status := "success",
           data := some (.obj [("last", t.last), ("bid", t.bid), ("ask", t.ask),
             ("high", t.high), ("low", t.low), ("open", t.openPrice),
             ("close", t.close), ("volume", t.baseVolume),
             ("quoteVolume", t.quoteVolume), ("change", t.change),
             ("percentage", t.percentage), ("timestamp", t.timestamp),
             ("datetime", t.datetime)]),
           metadata := some (.obj [("exchange", .str exchange_normalized),
             ("symbol", .str symbol_normalized),
             ("timestamp", .num env.now)]) }, 1)

/-- The upstream order book, with the keys `get_orderbook_data` reads from
`exchange.fetch_order_book`'s result.  Bids and asks are `[price, amount]`
levels. -/
structure OrderBook where
  bids : List (ℚ × ℚ)
  asks : List (ℚ × ℚ)
  timestamp : Json
  datetime : Json
  nonce : Json

/-- Environment of `get_orderbook_data`. -/
structure OrderBookEnv where
  fetch_order_book : String → ℤ → Except PyExc OrderBook
  now : ℚ

/-- `[[price, amount], ...]` levels rendered back into a JSON array. -/
def levelsToJson (levels : List (ℚ × ℚ)) : Json :=
  .arr (levels.map fun l => .arr [.num l.1, .num l.2])

/-- Embeds `get_orderbook_data(symbol, exchange_name, limit)` of
`crypto_market_agent.py`.  The second component counts the external
(exchange API) operations performed. -/
def get_orderbook_data (env : OrderBookEnv) (symbol exchange_name : String)
    (limit : ℤ) : ToolResult × ℕ :=
  if pyBlank symbol then
    ({ status := "error",
       error_message := some "交易对符号不能为空，请提供如'BTC/USDT'格式的交易对" }, 0)
  else if pyBlank exchange_name then
    ({ status := "error",
       error_message := some "交易所名称不能为空，请提供支持的交易所名称" }, 0)
  else if limit ≤ 0 then
    ({ status := "error",
       error_message := some "深度档位数量必须是大于0的整数" }, 0)
  else if 100 < limit then
    ({ status := "error",
       error_message := some "深度档位数量不能超过100，建议使用5-50档" }, 0)
  else
    let symbol_normalized := pyUpperStr (pyStripStr symbol)
    let exchange_normalized := pyLowerStr (pyStripStr exchange_name)
    let handler : PyExc → ToolResult := fun e =>
      match e with
      | .valueError m =>
        { status := "error",
          error_message := some ("不支持的交易所或交易对: " ++ m),
          metadata := some (.obj [("exchange", .str exchange_normalized),
                                  ("symbol", .str symbol_normalized)]) }
      | e =>
        { status := "error",
          error_message := some ("获取订单簿数据失败: " ++ pyStr e),
          metadata := some (.obj [("exchange", .str exchange_normalized),
                                  ("symbol", .str symbol_normalized)]) }
    match getExchange exchange_normalized with
    | .error e => (handler e, 0)
    | .ok () =>
      match env.fetch_order_book symbol_normalized limit with
      | .error e => (handler e, 1)
      | .ok orderbook =>
        -- spread = asks[0][0] - bids[0][0] when both sides are non-empty
        let spread : Option ℚ :=
          match orderbook.bids, orderbook.asks with
          | b :: _, a :: _ => some (a.1 - b.1)
          | _, _ => none
        ({ status := "success",
           data := some (.obj [
             ("bids", levelsToJson (orderbook.bids.take limit.toNat)),
             ("asks", levelsToJson (orderbook.asks.take limit.toNat)),
             ("timestamp", orderbook.timestamp),
             ("datetime", orderbook.datetime),
             ("nonce", orderbook.nonce)]),
           summary := some (.obj [
             ("sum_bid", .num ((orderbook.bids.map Prod.snd).sum)),
             ("sum_ask", .num ((orderbook.asks.map Prod.snd).sum)),
             ("spread", match spread with | some q => .num q | none => .null)]),
           metadata := some (.obj [("exchange", .str exchange_normalized),
             ("symbol", .str symbol_normalized),
             ("limit", .num (limit : ℚ)),
             ("timestamp", .num env.now)]) }, 1)

/-- One upstream trade record, with the keys `get_trades_data` reads. -/
structure Trade where
  id : Json
  price : ℚ
  amount : ℚ
  side : String
  timestamp : ℤ

/-- Environment of `get_trades_data`: the outcome of
`exchange.fetch_trades(symbol, limit=limit)`, the rendering
`datetime.fromtimestamp(int(ts)/1000).strftime("%Y-%m-%d %H:%M:%S")`, and
the clock. -/
structure TradesEnv where
  fetch_trades : String → ℤ → Except PyExc (List Trade)
  strftime : ℤ → String
  now : ℚ

/-- One processed trade entry of `get_trades_data`'s payload. -/
def processedTrade (env : TradesEnv) (t : Trade) : Json :=
  .obj [("id", t.id), ("price", .num t.price), ("amount", .num t.amount),
        ("side", .str t.side), ("timestamp", .str (env.strftime t.timestamp))]

/-- Embeds `get_trades_data(symbol, exchange_name, limit)` of
`crypto_market_agent.py` (lines 298-349).  Unlike its siblings this function
performs no input validation: the whole body is one `try` whose `except`
returns a result keyed `error` (not `error_message`), with top-level
`exchange` / `symbol` / `timestamp` fields and no `metadata`.  The second
component counts the external (exchange API) operations performed;
`_get_exchange` itself performs none in this module. -/
def get_trades_data (env : TradesEnv) (symbol exchange_name : String)
    (limit : ℤ) : ToolResult × ℕ :=
  let handler : PyExc → ToolResult := fun e =>
    { status := "error",
      exchange := some exchange_name,
      symbol := some symbol,
      error := some (pyStr e),
      timestamp := some env.now }
  match getExchange exchange_name with
  | .error e => (handler e, 0)
  | .ok () =>
    match env.fetch_trades symbol limit with
    | .error e => (handler e, 1)
    | .ok trades =>
      let processed := trades.map (processedTrade env)
      ({ status := "success",
         exchange := some exchange_name,
         symbol := some symbol,
         data := some (.obj [("trades", .arr processed),
                             ("count", .num (processed.length : ℚ))]),
         summary := some (.obj [
           ("latest_price", match trades with
             | t :: _ => .num t.price
             | [] => .null),
           ("latest_side", match trades with
             | t :: _ => .str t.side
             | [] => .null),
           ("sum_buy", .num (((trades.filter fun t => decide (t.side = "buy")).map
               Trade.amount).sum)),
           ("sum_sell", .num (((trades.filter fun t => decide (t.side = "sell")).map
               Trade.amount).sum)),
           ("sum_volume", .num ((trades.map Trade.amount).sum))]),
         timestamp := some env.now }, 1)

end CryptoMarket

/-! ## `crypto_trade_agent.py`: trading tools -/

namespace CryptoTrade

/-- The `SUPPORTED_EXCHANGES` dictionary keys (`crypto_trade_agent.py`). -/
def SUPPORTED_EXCHANGES : List String := ["binance", "okx"]

/-- External operations a trading tool can perform against the exchange.
`loadMarkets` is issued by `_get_exchange` (`exchange.load_markets()`);
the `create*Order` operations place real orders. -/
inductive ExtCall where
  | loadMarkets
  | createLimitOrder (symbol side : String) (amount price : ℚ)
  | createMarketOrder (symbol side : String) (amount : ℚ)
  | fetchOpenOrders (symbol : Option String)
  deriving DecidableEq, Repr

/-- Outcome of a Python call: a returned value or an uncaught exception. -/
inductive PyOutcome (α : Type) where
  | returns (r : α)
  | raises (e : PyExc)

/-- The order object returned by `exchange.create_limit_order` /
`create_market_order`, with the keys copied into the tool results. -/
structure Order where
  id : Json
  symbol : Json
  side : Json
  amount : Json
  price : Json
  type : Json
  status : Json
  filled : Json
  remaining : Json
  timestamp : Json
  datetime : Json

/-- One entry of `exchange.markets`, with the keys `place_futures_order`
reads: `contractSize`, and the decimal renderings
`str(market['precision']['amount'])` / `str(market['precision']['price'])`. -/
structure FutMarket where
  contractSize : ℚ
  precision_amount : String
  precision_price : String

/-- Environment of the trading tools: the credentials `_get_api_credentials`
reads from the process environment, the outcome of `exchange.load_markets()`
(performed inside `_get_exchange`), the markets table, the outcome of each
order / query operation, and the clock. -/
structure TradeEnv where
  api_key : String
  secret : String
  password : String
  load_markets : Except PyExc Unit
  create_limit_order : String → String → ℚ → ℚ → Except PyExc Order
  create_market_order : String → String → ℚ → Except PyExc Order
  fetch_open_orders : Option String → Except PyExc (List Order)
  markets : String → Option FutMarket
  now : ℚ

/-- Embeds `_get_exchange` of `crypto_trade_agent.py`: `ValueError` for an
unsupported name, otherwise the constructor runs `exchange.load_markets()`,
a real network operation recorded in the call trace. -/
def getExchange (env : TradeEnv) (exchange_name : String) :
    Except PyExc Unit × List ExtCall :=
  if pyLowerStr exchange_name ∈ SUPPORTED_EXCHANGES then
    (env.load_markets, [.loadMarkets])
  else
    (.error (.valueError ("不支持的交易所: " ++ exchange_name ++
      ". 支持的交易所: ['binance', 'okx']")), [])

/-- Metadata `{exchange, symbol}` used by the trade tools' error paths. -/
def errMetadata (exchange_normalized symbol_normalized : String) : Json :=
  .obj [("exchange", .str exchange_normalized),
        ("symbol", .str symbol_normalized)]

/-- Embeds `place_spot_order(symbol, side, amount, price, exchange_name)` of
`crypto_trade_agent.py` (lines 212-360).  `order_type` is the local constant
`'limit'`.  Note the input validation checks only that `symbol` is
non-blank; there is no check for the `'/'` delimiter.  The second component
is the trace of external exchange operations. -/
def place_spot_order (env : TradeEnv) (symbol side : String) (amount price : ℚ)
    (exchange_name : String) : ToolResult × List ExtCall :=
  let order_type := "limit"
  if pyBlank symbol then
    ({ status := "error",
       error_message := some "交易对符号不能为空，请提供如'BTC/USDT'格式的交易对" }, [])
  else if side = "" ∨ pyLowerStr (pyStripStr side) ∉ ["buy", "sell"] then
    ({ status := "error",
       error_message := some "买卖方向必须是'buy'或'sell'" }, [])
  else if amount ≤ 0 then
    ({ status := "error",
       error_message := some "交易数量必须是大于0的数字" }, [])
  else if order_type = "" ∨ pyLowerStr (pyStripStr order_type) ∉ ["limit", "market"] then
    ({ status := "error",
       error_message := some "订单类型必须是'limit'或'market'" }, [])
  else if pyLowerStr (pyStripStr order_type) = "limit" ∧ price ≤ 0 then
    ({ status := "error",
       error_message := some "限价单必须指定大于0的价格" }, [])
  else if pyBlank exchange_name then
    ({ status := "error",
       error_message := some "交易所名称不能为空，请提供支持的交易所名称" }, [])
  else
    let symbol_normalized := pyUpperStr (pyStripStr symbol)
    let side_normalized := pyLowerStr (pyStripStr side)
    let order_type_normalized := pyLowerStr (pyStripStr order_type)
    let exchange_normalized := pyLowerStr (pyStripStr exchange_name)
    let handler : PyExc → ToolResult := fun e =>
      match e with
      | .valueError m =>
        { status := "error",
          error_message := some ("不支持的交易所或参数错误: " ++ m),
          metadata := some (errMetadata exchange_normalized symbol_normalized) }
      | e =>
        { status := "error",
          error_message := some ("下现货订单失败: " ++ pyStr e),
          metadata := some (errMetadata exchange_normalized symbol_normalized) }
    -- try: credentials, handle construction, order placement
    if env.api_key = "" ∨ env.secret = "" then
      ({ status := "error",
         error_message := some ("需要设置环境变量 " ++ pyUpperStr exchange_normalized ++
           "_API_KEY 和 " ++ pyUpperStr exchange_normalized ++ "_SECRET 才能下单"),
         metadata := some (errMetadata exchange_normalized symbol_normalized) }, [])
    else
      match getExchange env exchange_normalized with
      | (.error e, calls) => (handler e, calls)
      | (.ok (), calls) =>
        if order_type_normalized = "limit" then
          let calls := calls ++ [.createLimitOrder symbol_normalized side_normalized
            amount price]
          match env.create_limit_order symbol_normalized side_normalized amount price with
          | .error e => (handler e, calls)
          | .ok order =>
            ({ status := "success",
               data := some (.obj [("order_id", order.id), ("symbol", order.symbol),
                 ("side", order.side), ("amount", order.amount),
                 ("price", order.price), ("type", order.type),
                 ("status", order.status), ("timestamp", order.timestamp),
                 ("datetime", order.datetime)]),
               metadata := some (.obj [("exchange", .str exchange_normalized),
                 ("symbol", .str symbol_normalized),
                 ("timestamp", .num env.now)]) }, calls)
        else
          let calls := calls ++ [.createMarketOrder symbol_normalized side_normalized
            amount]
          match env.create_market_order symbol_normalized side_normalized amount with
          | .error e => (handler e, calls)
          | .ok order =>
            ({ status := "success",
               data := some (.obj [("order_id", order.id), ("symbol", order.symbol),
                 ("side", order.side), ("amount", order.amount),
                 ("price", order.price), ("type", order.type),
                 ("status", order.status), ("timestamp", order.timestamp),
                 ("datetime", order.datetime)]),
               metadata := some (.obj [("exchange", .str exchange_normalized),
                 ("symbol", .str symbol_normalized),
                 ("timestamp", .num env.now)]) }, calls)

end CryptoTrade

/-! ## Python primitive operations shared by several embeddings -/

/-- Python `/` on numbers: raises `ZeroDivisionError` on a zero denominator. -/
def pyDiv (a b : ℚ) : Except PyExc ℚ :=
  if b = 0 then .error .zeroDivisionError else .ok (a / b)

/-- Python `c in s` for a single character and a string. -/
def pyCharIn (c : Char) (s : String) : Bool := s.toList.contains c

/-- Whether `pat` is a prefix of `l` (kernel-reducible). -/
def listIsPrefix : List Char → List Char → Bool
  | [], _ => true
  | _ :: _, [] => false
  | a :: as, b :: bs => a == b && listIsPrefix as bs

/-- Whether `pat` occurs as a contiguous run inside `l` (kernel-reducible). -/
def listIsInfix (pat : List Char) : List Char → Bool
  | [] => listIsPrefix pat []
  | b :: bs => listIsPrefix pat (b :: bs) || listIsInfix pat bs

/-- Python `pat in s` for strings: substring containment. -/
def pyInStr (pat s : String) : Bool := listIsInfix pat.toList s.toList

/-- The segment `l.split(sep)[1]`: the characters strictly between the first
and the second occurrence of `sep`. -/
def splitSeg1 (sep : Char) (l : List Char) : List Char :=
  ((l.dropWhile (· ≠ sep)).drop 1).takeWhile (· ≠ sep)

namespace CryptoTrade

/-- The precision-flooring performed by `place_futures_order`
(`crypto_trade_agent.py` lines 1345-1358): when the decimal rendering of the
market precision contains `'.'`, the value is floored to
`len(precision.split('.')[1])` decimal digits, otherwise `math.floor` is
applied directly. -/
def floorToPrecision (x : ℚ) (precision : String) : ℚ :=
  if pyCharIn '.' precision then
    let digits := (splitSeg1 '.' precision.toList).length
    (⌊x * 10 ^ digits⌋ : ℚ) / 10 ^ digits
  else (⌊x⌋ : ℚ)

/-- `new_side` mapping of `place_futures_order` (lines 1363-1371): Python
tests `'open_long' in side_normalized` etc., a substring containment. -/
def newSide (side_normalized : String) : String :=
  if pyInStr "open_long" side_normalized then "buy"
  else if pyInStr "open_short" side_normalized then "sell"
  else if pyInStr "close_long" side_normalized then "sell"
  else if pyInStr "close_short" side_normalized then "buy"
  else ""

/-- Embeds `place_futures_order(symbol, side, amount, price, exchange_name)`
of `crypto_trade_agent.py` (lines 1228-1417).  `order_type` is the local
constant `'limit'`.  The futures symbol must contain `':'`; the
amount-to-contract conversion floors `amount / contractSize` to the market's
amount precision, and the price is floored to the price precision.  The
second component is the trace of external exchange operations.  The `params`
dictionary (portfolio-margin / position-side flags) is passed opaquely to
the SDK and not modelled. -/
def place_futures_order (env : TradeEnv) (symbol side : String)
    (amount price : ℚ) (exchange_name : String) : ToolResult × List ExtCall :=
  let order_type := "limit"
  if pyBlank symbol then
    ({ status := "error",
       error_message := some
         "交易对符号不能为空，请提供如'BTC/USDT:USDT'或'BTC/USDT:BTC'格式的交易对" }, [])
  else if ¬ pyCharIn ':' symbol then
    ({ status := "error",
       error_message := some
         "交易对符号格式错误，请提供如'BTC/USDT:USDT'或'BTC/USDT:BTC'格式的交易对" }, [])
  else if side = "" ∨
      pyLowerStr (pyStripStr side) ∉ ["open_long", "open_short", "close_long", "close_short"] then
    ({ status := "error",
       error_message := some
         "买卖方向必须是'open_long'或'open_short'或'close_long'或'close_short'" }, [])
  else if amount ≤ 0 then
    ({ status := "error",
       error_message := some "交易数量必须是大于0的数字" }, [])
  else if order_type = "" ∨ pyLowerStr (pyStripStr order_type) ∉ ["limit", "market"] then
    ({ status := "error",
       error_message := some "订单类型必须是'limit'或'market'" }, [])
  else if pyLowerStr (pyStripStr order_type) = "limit" ∧ price ≤ 0 then
    ({ status := "error",
       error_message := some "限价单必须指定大于0的价格" }, [])
  else if pyBlank exchange_name then
    ({ status := "error",
       error_message := some "交易所名称不能为空，请提供支持的交易所名称" }, [])
  else
    let symbol_normalized := pyUpperStr (pyStripStr symbol)
    let side_normalized := pyLowerStr (pyStripStr side)
    let order_type_normalized := pyLowerStr (pyStripStr order_type)
    let exchange_normalized := pyLowerStr (pyStripStr exchange_name)
    let handler : PyExc → ToolResult := fun e =>
      match e with
      | .valueError m =>
        { status := "error",
          error_message := some ("不支持的交易所或参数错误: " ++ m),
          metadata := some (errMetadata exchange_normalized symbol_normalized) }
      | e =>
        { status := "error",
          error_message := some ("下合约订单失败: " ++ pyStr e),
          metadata := some (errMetadata exchange_normalized symbol_normalized) }
    if env.api_key = "" ∨ env.secret = "" then
      ({ status := "error",
         error_message := some ("需要设置环境变量 " ++ pyUpperStr exchange_normalized ++
           "_API_KEY 和 " ++ pyUpperStr exchange_normalized ++ "_SECRET 才能下合约订单"),
         metadata := some (errMetadata exchange_normalized symbol_normalized) }, [])
    else
      match getExchange env exchange_normalized with
      | (.error e, calls) => (handler e, calls)
      | (.ok (), calls) =>
        -- sheet = amount / exchange.markets[symbol]['contractSize'], floored
        -- to the amount precision; KeyError on a missing market is caught by
        -- the function's `except Exception` clause.
        match env.markets symbol_normalized with
        | none =>
          (handler (.other ("'" ++ symbol_normalized ++ "'")), calls)
        | some market =>
          match pyDiv amount market.contractSize with
          | .error e => (handler e, calls)
          | .ok sheet0 =>
            let sheet := floorToPrecision sheet0 market.precision_amount
            let priceFloored := floorToPrecision price market.precision_price
            let new_side := newSide side_normalized
            if order_type_normalized = "limit" then
              let calls := calls ++ [.createLimitOrder symbol_normalized new_side
                sheet priceFloored]
              match env.create_limit_order symbol_normalized new_side sheet
                  priceFloored with
              | .error e => (handler e, calls)
              | .ok order =>
                ({ status := "success",
                   data := some (.obj [("order_id", order.id),
                     ("symbol", order.symbol), ("side", order.side),
                     ("amount", order.amount), ("price", order.price),
                     ("type", order.type), ("status", order.status),
                     ("timestamp", order.timestamp)]),
                   metadata := some (.obj [("exchange", .str exchange_normalized),
                     ("symbol", .str symbol_normalized),
                     ("timestamp", .num env.now)]) }, calls)
            else
              let calls := calls ++ [.createMarketOrder symbol_normalized new_side
                sheet]
              match env.create_market_order symbol_normalized new_side sheet with
              | .error e => (handler e, calls)
              | .ok order =>
                ({ status := "success",
                   data := some (.obj [("order_id", order.id),
                     ("symbol", order.symbol), ("side", order.side),
                     ("amount", order.amount), ("price", order.price),
                     ("type", order.type), ("status", order.status),
                     ("timestamp", order.timestamp)]),
                   metadata := some (.obj [("exchange", .str exchange_normalized),
                     ("symbol", .str symbol_normalized),
                     ("timestamp", .num env.now)]) }, calls)

/-- One processed open-order entry of `get_futures_open_orders`'s payload. -/
def processedOrder (o : Order) : Json :=
  .obj [("id", o.id), ("symbol", o.symbol), ("side", o.side),
        ("amount", o.amount), ("price", o.price), ("type", o.type),
        ("status", o.status), ("filled", o.filled), ("remaining", o.remaining),
        ("timestamp", o.timestamp), ("datetime", o.datetime)]

/-- Embeds `get_futures_open_orders(symbol, exchange_name)` of
`crypto_trade_agent.py` (lines 1418-1553).  For a blank `symbol` the code
sets `symbol_normalized = None` and then evaluates
`':' not in symbol_normalized` BEFORE entering its `try` block, so a
`TypeError` propagates to the caller; this embedding therefore returns a
`PyOutcome`.  The second component is the trace of external exchange
operations. -/
def get_futures_open_orders (env : TradeEnv) (symbol exchange_name : String) :
    PyOutcome ToolResult × List ExtCall :=
  if pyBlank exchange_name then
    (.returns
      { status := "error",
        error_message := some "交易所名称不能为空，请提供支持的交易所名称" }, [])
  else
    -- symbol_normalized = symbol.strip().upper() if symbol and symbol.strip() else None
    let symbol_normalized : Option String :=
      if ¬ pyBlank symbol then some (pyUpperStr (pyStripStr symbol)) else none
    -- if ':' not in symbol_normalized: `in` applied to None raises TypeError
    match symbol_normalized with
    | none =>
      (.raises (.typeError "argument of type 'NoneType' is not iterable"), [])
    | some sn =>
      if ¬ pyCharIn ':' sn then
        (.returns
          { status := "error",
            error_message := some
              "交易对符号格式错误，请提供如'BTC/USDT:USDT'或'BTC/USDT:BTC'格式的交易对" }, [])
      else
        let exchange_normalized := pyLowerStr (pyStripStr exchange_name)
        let handler : PyExc → ToolResult := fun e =>
          match e with
          | .valueError m =>
            { status := "error",
              error_message := some ("不支持的交易所: " ++ m),
              metadata := some (.obj [("exchange", .str exchange_normalized)]) }
          | e =>
            { status := "error",
              error_message := some ("获取合约未成交订单失败: " ++ pyStr e),
              metadata := some (.obj [("exchange", .str exchange_normalized),
                                      ("symbol", .str sn)]) }
        if env.api_key = "" ∨ env.secret = "" then
          (.returns
            { status := "error",
              error_message := some ("需要设置环境变量 " ++ pyUpperStr exchange_normalized ++
                "_API_KEY 和 " ++ pyUpperStr exchange_normalized ++
                "_SECRET 才能获取合约未成交订单"),
              metadata := some (.obj [("exchange", .str exchange_normalized)]) }, [])
        else
          match getExchange env exchange_normalized with
          | (.error e, calls) => (.returns (handler e), calls)
          | (.ok (), calls) =>
            let calls := calls ++ [.fetchOpenOrders (some sn)]
            match env.fetch_open_orders (some sn) with
            | .error e => (.returns (handler e), calls)
            | .ok orders =>
              let processed := orders.map processedOrder
              (.returns
                { status := "success",
                  data := some (.obj [("orders", .arr processed),
                    ("count", .num (processed.length : ℚ))]),
                  metadata := some (.obj [("exchange", .str exchange_normalized),
                    ("symbol", .str sn),
                    ("timestamp", .num env.now)]) }, calls)

end CryptoTrade

/-! ## `market_news_agent.py`: news tools -/

namespace MarketNews

/-- Lookup of a key in an embedded Python `dict`. -/
def jLookup (fields : List (String × Json)) (key : String) : Option Json :=
  (fields.find? fun f => decide (f.1 = key)).map Prod.snd

/-- Python `d.get(key, default)`; raises when the receiver is not a
mapping (Python: `AttributeError: ... object has no attribute 'get'`). -/
def pyDictGet (j : Json) (key : String) (dflt : Json) : Except PyExc Json :=
  match j with
  | .obj fields => .ok ((jLookup fields key).getD dflt)
  | _ => .error (.other "object has no attribute 'get'")

/-- Python `round(x, 2)` (round-half-to-even), on exact rationals. -/
def pyRoundHalfEven (x : ℚ) : ℤ :=
  if x - ⌊x⌋ < 1/2 then ⌊x⌋
  else if 1/2 < x - ⌊x⌋ then ⌊x⌋ + 1
  else if ⌊x⌋ % 2 = 0 then ⌊x⌋ else ⌊x⌋ + 1

/-- `round(x, 2)`. -/
def pyRound2 (x : ℚ) : ℚ := (pyRoundHalfEven (x * 100) : ℚ) / 100

/-! ### `get_market_data`: the news-feed polling loop (lines 40-56)

The helper posts to the news-flash endpoint inside `while True: try: ...
break; except: sleep(5)`: on any transport/parse failure it logs, sleeps 5
seconds and retries; only a successful attempt leaves the loop, after which
the parsed `data['data']['tbody']` list is returned.  We model the loop as a
big-step relation over the sequence of attempt outcomes. -/

/-- Outcome of one polling attempt (`requests.post` + `res.json()`):
either some exception was raised, or the attempt succeeded with the parsed
news list `data['data']['tbody']`. -/
inductive AttemptOutcome where
  | fail (msg : String)
  | ok (tbody : List Json)

/-- Observable events of the polling loop: issuing attempt `n`, and
`time.sleep` for a number of seconds. -/
inductive PollEvent where
  | attempt (n : ℕ)
  | sleep (seconds : ℕ)
  deriving DecidableEq, Repr

/-- Big-step semantics of the `while True` retry loop of `get_market_data`:
`PollReturns env i tr d` holds when, starting with attempt number `i`
against outcome oracle `env`, the loop terminates returning the parsed list
`d` with event trace `tr`.  A failed attempt is followed by `time.sleep(5)`
and a retry; a successful attempt `break`s and returns its payload. -/
inductive PollReturns (env : ℕ → AttemptOutcome) :
    ℕ → List PollEvent → List Json → Prop where
  | done {i d} : env i = .ok d → PollReturns env i [.attempt i] d
  | retry {i msg tr d} : env i = .fail msg → PollReturns env (i + 1) tr d →
      PollReturns env i (.attempt i :: .sleep 5 :: tr) d

/-! ### `batch_search_market_news` (lines 300-470) -/

/-- Outcome of the inner `search_market_news(keyword, page_size)` call, as
observed by `batch_search_market_news`: the returned `ToolResult`, or an
exception (caught by the batch loop's `except`). -/
inductive SearchOutcome where
  | res (r : ToolResult)
  | raised (e : PyExc)

/-- Environment of the news tools. -/
structure NewsEnv where
  search : String → ℤ → SearchOutcome
  now : ℚ

/-- Loop state of the batch search: accumulated per-keyword results and the
three counters. -/
structure BatchAcc where
  results : List Json
  successful : ℕ
  failed : ℕ
  total_news : ℕ

/-- One iteration of the batch-search loop body (lines 364-418): a `try`
around the single-keyword search.  Reading `search_result["data"]["news"]`
and taking its `len` raise (and are caught) when the fields are missing or
not a list; a non-"success" status takes the explicit failure branch. -/
def batchStep (env : NewsEnv) (page_size : ℤ) (acc : BatchAcc)
    (keyword : String) : BatchAcc :=
  let exceptional : PyExc → BatchAcc := fun e =>
    { acc with
      failed := acc.failed + 1,
      results := acc.results ++ [.obj [("keyword", .str keyword),
        ("status", .str "error"), ("news", .arr []), ("news_count", .num 0),
        ("error_message", .str ("搜索关键词 '" ++ keyword ++ "' 时发生异常: " ++
          pyStr e))]] }
  match env.search keyword page_size with
  | .raised e => exceptional e
  | .res search_result =>
    if search_result.status = "success" then
      -- news = search_result["data"]["news"]; KeyError/TypeError are caught
      match search_result.data with
      | some (.obj fields) =>
        match jLookup fields "news" with
        | some (.arr news) =>
          { acc with
            successful := acc.successful + 1,
            total_news := acc.total_news + news.length,
            results := acc.results ++ [.obj [("keyword", .str keyword),
              ("status", .str "success"), ("news", .arr news),
              ("news_count", .num (news.length : ℚ)),
              ("search_metadata", (search_result.metadata).getD (.obj []))]] }
        | some _ => exceptional (.typeError "object of this type has no len()")
        | none => exceptional (.other "'news'")
      | _ => exceptional (.other "'data'")
    else
      { acc with
        failed := acc.failed + 1,
        results := acc.results ++ [.obj [("keyword", .str keyword),
          ("status", .str "error"), ("news", .arr []), ("news_count", .num 0),
          ("error_message",
            .str ((search_result.error_message).getD "未知错误"))]] }

/-- The keyword filtering of `batch_search_market_news` (lines 341-345):
keep non-empty, non-whitespace keywords, stripped. -/
def validKeywords (keywords : List String) : List String :=
  keywords.filterMap fun keyword =>
    if keyword ≠ "" ∧ pyStripStr keyword ≠ "" then some (pyStripStr keyword) else none

/-- Embeds `batch_search_market_news(keywords, page_size_per_keyword)` of
`market_news_agent.py` (lines 300-470).  An out-of-range page size is
silently replaced by 10; the keywords are searched strictly sequentially;
when every keyword search fails the final result carries `status="error"`
together with BOTH `error_message` and the assembled `data` payload
(lines 445-457). -/
def batch_search_market_news (env : NewsEnv) (keywords : List String)
    (page_size_per_keyword : ℤ) : ToolResult :=
  if keywords = [] then
    { status := "error",
      error_message := some "关键词列表不能为空且必须是数组格式" }
  else
    let valid_keywords := validKeywords keywords
    if valid_keywords = [] then
      { status := "error", error_message := some "没有有效的搜索关键词" }
    else
      let page_size :=
        if ¬ (1 ≤ page_size_per_keyword ∧ page_size_per_keyword ≤ 100) then 10
        else page_size_per_keyword
      let acc := valid_keywords.foldl (batchStep env page_size)
        { results := [], successful := 0, failed := 0, total_news := 0 }
      let n := valid_keywords.length
      let overall_status :=
        if acc.successful = n then "success"
        else if 0 < acc.successful then "partial_success"
        else "error"
      let summary : Json := .obj [
        ("total_keywords", .num (n : ℚ)),
        ("successful_searches", .num (acc.successful : ℚ)),
        ("failed_searches", .num (acc.failed : ℚ)),
        ("total_news_found", .num (acc.total_news : ℚ)),
        ("success_rate", .num (if valid_keywords ≠ [] then
          pyRound2 ((acc.successful : ℚ) / (n : ℚ) * 100) else 0))]
      let metadata : Json := .obj [
        ("timestamp", .num env.now),
        ("requested_keywords", .arr (valid_keywords.map .str)),
        ("page_size_per_keyword", .num (page_size : ℚ)),
        ("batch_processing_time", .num env.now),
        ("api_calls_made", .num (n : ℚ))]
      if overall_status = "error" then
        { status := "error",
          error_message := some ("批量搜索失败：" ++ toString acc.failed ++ "/" ++
            toString n ++ " 个关键词搜索失败"),
          data := some (.obj [("results", .arr acc.results),
            ("summary", summary)]),
          metadata := some metadata }
      else
        { status := overall_status,
          data := some (.obj [("results", .arr acc.results),
            ("summary", summary)]),
          metadata := some metadata }

/-! ### `get_macro_data` (lines 471-632) -/

/-- The HTTP response object of the jin10 request, as far as
`get_macro_data` inspects it. -/
structure MacroResponse where
  status_code : ℤ
  json : Except PyExc Json

/-- Environment of `get_macro_data`: the outcome of the single
`cffi_requests.get` call, the `max_time` string derived from the clock, and
the clock itself. -/
structure MacroEnv where
  http_get : Except PyExc MacroResponse
  max_time_str : String
  now : ℚ

/-- One cleaned item of the jin10 payload:
`{"time": item.get("time", ""), "content": item.get("data", "").get("content", "")}`;
the chained `.get` raises when `item` (or its `"data"` member) is not a
mapping, which the function's outer `except` catches. -/
def macroCleanItem (item : Json) : Except PyExc Json := do
  let timeV ← pyDictGet item "time" (.str "")
  let dataV ← pyDictGet item "data" (.str "")
  let contentV ← pyDictGet dataV "content" (.str "")
  .ok (.obj [("time", timeV), ("content", contentV)])

/-- Embeds `get_macro_data(limit)` of `market_news_agent.py` (lines
471-632).  NOTE: an out-of-range `limit` is NOT rejected; it is silently
replaced by the default 50 (line 499-500) and the request proceeds.  The
second component counts the external HTTP operations performed. -/
def get_macro_data (env : MacroEnv) (limit : ℤ) : ToolResult × ℕ :=
  let limit := if ¬ (1 ≤ limit ∧ limit ≤ 100) then 50 else limit
  let handler : PyExc → ToolResult := fun e =>
    match e with
    | .timeout _ =>
      { status := "error", error_message := some "金十数据API请求超时（30秒）" }
    | .connectionError _ =>
      { status := "error", error_message := some "无法连接到金十数据API服务器" }
    | e =>
      { status := "error",
        error_message := some ("获取金十宏观数据时发生未知错误: " ++ pyStr e) }
  match env.http_get with
  | .error e => (handler e, 1)
  | .ok response =>
    if response.status_code ≠ 200 then
      ({ status := "error",
         error_message := some ("金十数据API请求失败，状态码: " ++
           toString response.status_code) }, 1)
    else
      match response.json with
      | .error (.valueError m) =>
        ({ status := "error",
           error_message := some ("解析金十数据API响应失败: " ++ m) }, 1)
      | .error e => (handler e, 1)
      | .ok api_data =>
        match api_data with
        | .obj fields =>
          -- data_list = api_data.get("data", []), coerced to [] if not a list
          let data_list : List Json :=
            match jLookup fields "data" with
            | some (.arr l) => l
            | _ => []
          let limited :=
            if data_list.length > limit.toNat then data_list.take limit.toNat
            else data_list
          match limited.mapM macroCleanItem with
          | .error e => (handler e, 1)
          | .ok clean_data =>
            ({ status := "success",
               data := some (.obj [
                 ("macro_data", .arr clean_data),
                 ("count_info", .obj [
                   ("total_available", .num (data_list.length : ℚ)),
                   ("requested_limit", .num (limit : ℚ)),
                   ("actual_returned", .num (clean_data.length : ℚ))])]),
               metadata := some (.obj [
                 ("timestamp", .num env.now),
                 ("data_source", .str "金十数据"),
                 ("api_url", .str "https://flash-api.jin10.com/get_flash_list"),
                 ("max_time_used", .str env.max_time_str),
                 ("requested_limit", .num (limit : ℚ)),
                 ("total_available_count", .num (data_list.length : ℚ)),
                 ("returned_count", .num (clean_data.length : ℚ)),
                 ("api_response_status", .num (response.status_code : ℚ))]) }, 1)
        | _ =>
          ({ status := "error",
             error_message := some "金十数据API返回格式异常" }, 1)

end MarketNews

/-! ## `crypto_market_agent.py`: derived summary statistics (result shaping) -/

/-- Python `max(xs)` on a sequence: `ValueError` when empty. -/
def pyMax (l : List ℚ) : Except PyExc ℚ :=
  match l with
  | [] => .error (.valueError "max() arg is an empty sequence")
  | a :: t => .ok (t.foldl max a)

/-- Python `min(xs)` on a sequence: `ValueError` when empty. -/
def pyMin (l : List ℚ) : Except PyExc ℚ :=
  match l with
  | [] => .error (.valueError "min() arg is an empty sequence")
  | a :: t => .ok (t.foldl min a)

namespace CryptoMarket

/-- One processed candle of `get_kline_data` (lines 723-733). -/
structure Candle where
  datetime : String
  openPrice : ℚ
  high : ℚ
  low : ℚ
  close : ℚ
  volume : ℚ

/-- The `summary` mapping computed by `get_kline_data`. -/
structure KlineSummary where
  latest_price : ℚ
  price_change : ℚ
  price_change_percent : ℚ
  highest_price : ℚ
  lowest_price : ℚ
  total_volume : ℚ
  period_start : String
  period_end : String

/-- Embeds the summary computation of `get_kline_data`
(`crypto_market_agent.py` lines 735-752): when the kline list is non-empty,
`price_change_percent = (price_change / first['open']) * 100 if
first['open'] != 0 else 0` — the division is explicitly zero-guarded.
An empty list leaves `summary = {}` (modelled as `none`). -/
def klineSummary (klines : List Candle) : Except PyExc (Option KlineSummary) :=
  match klines with
  | [] => .ok none
  | first :: rest =>
    let latest := (first :: rest).getLast (by simp)
    let price_change := latest.close - first.openPrice
    match (if first.openPrice ≠ 0 then
        (pyDiv price_change first.openPrice).map (· * 100)
      else .ok 0) with
    | .error e => .error e
    | .ok price_change_percent =>
      match pyMax ((first :: rest).map Candle.high) with
      | .error e => .error e
      | .ok highest =>
        match pyMin ((first :: rest).map Candle.low) with
        | .error e => .error e
        | .ok lowest =>
          .ok (some {
            latest_price := latest.close,
            price_change := price_change,
            price_change_percent := price_change_percent,
            highest_price := highest,
            lowest_price := lowest,
            total_volume := ((first :: rest).map Candle.volume).sum,
            period_start := first.datetime,
            period_end := latest.datetime })

/-- One processed open-interest record of `get_open_interest_data`
(lines 1030-1036); `openInterestAmount` may be `None` upstream. -/
structure OIEntry where
  timestamp : Json
  datetime : String
  open_interest : Option ℚ
  open_interest_value : Option ℚ

/-- The `summary` mapping computed by `get_open_interest_data`. -/
structure OISummary where
  current_oi : Option ℚ
  current_oi_value : Option ℚ
  oi_change : ℚ
  oi_change_percentage : ℚ
  max_oi : ℚ
  min_oi : ℚ
  avg_oi : ℚ
  period_start : String
  period_end : String

/-- Python `a - b` where either operand may be `None`: `TypeError` then. -/
def pySubOpt (a b : Option ℚ) : Except PyExc ℚ :=
  match a, b with
  | some x, some y => .ok (x - y)
  | _, _ => .error (.typeError "unsupported operand type(s) for -: 'NoneType'")

/-- Python `x / b` where the denominator may be `None`: `TypeError` then,
`ZeroDivisionError` on zero. -/
def pyDivOptDen (x : ℚ) (b : Option ℚ) : Except PyExc ℚ :=
  match b with
  | some q => pyDiv x q
  | none => .error (.typeError "unsupported operand type(s) for /: 'NoneType'")

/-- Embeds the summary computation of `get_open_interest_data`
(`crypto_market_agent.py` lines 1038-1057): computed only when at least two
non-`None` amounts exist; `oi_change_percentage = (oi_change / previous_oi)
* 100 if previous_oi != 0 else 0` — `None != 0` is `True` in Python, so the
guard compares against `some 0` only.  The subtraction
`current_oi - previous_oi` raises `TypeError` (caught by the enclosing
tool's `except`) when an endpoint amount is `None`. -/
def oiSummary (processed : List OIEntry) : Except PyExc (Option OISummary) :=
  match processed with
  | [] => .ok none
  | first :: rest =>
    let oi_amounts := (first :: rest).filterMap OIEntry.open_interest
    if 2 ≤ oi_amounts.length then
      let latest := (first :: rest).getLast (by simp)
      let current_oi := latest.open_interest
      let previous_oi := first.open_interest
      match pySubOpt current_oi previous_oi with
      | .error e => .error e
      | .ok oi_change =>
        match (if previous_oi ≠ some 0 then
            (pyDivOptDen oi_change previous_oi).map (· * 100)
          else .ok 0) with
        | .error e => .error e
        | .ok oi_change_percentage =>
          match pyMax oi_amounts with
          | .error e => .error e
          | .ok max_oi =>
            match pyMin oi_amounts with
            | .error e => .error e
            | .ok min_oi =>
              match pyDiv oi_amounts.sum (oi_amounts.length : ℚ) with
              | .error e => .error e
              | .ok avg_oi =>
                .ok (some {
                  current_oi := current_oi,
                  current_oi_value := latest.open_interest_value,
                  oi_change := oi_change,
                  oi_change_percentage := oi_change_percentage,
                  max_oi := max_oi,
                  min_oi := min_oi,
                  avg_oi := avg_oi,
                  period_start := first.datetime,
                  period_end := latest.datetime })
    else .ok none

end CryptoMarket

/-! ## Concrete environments used by witnesses and counterexamples -/

/-- A stub order object returned by the stubbed exchange. -/
def orderStub : CryptoTrade.Order :=
  { id := .null, symbol := .null, side := .null, amount := .null,
    price := .null, type := .null, status := .null, filled := .null,
    remaining := .null, timestamp := .null, datetime := .null }

/-- A trading environment with valid credentials and an exchange that
accepts every operation. -/
def tradeEnvOk : CryptoTrade.TradeEnv :=
  { api_key := "key", secret := "secret", password := "",
    load_markets := .ok (),
    create_limit_order := fun _ _ _ _ => .ok orderStub,
    create_market_order := fun _ _ _ => .ok orderStub,
    fetch_open_orders := fun _ => .ok [],
    markets := fun _ => none,
    now := 0 }

/-! ## C1 -/

/-- C1: the spec claims every tool function is total and that
`get_futures_open_orders` with an empty or whitespace-only symbol returns an
error `ToolResult` rather than raising.  The code instead sets
`symbol_normalized = None` and evaluates `':' not in symbol_normalized`
before its `try` block, so a `TypeError` escapes to the caller — for every
environment, the call raises and performs no external operation.  (The
function's own docstring documents `get_futures_open_orders("", "binance")`
as the way to query all open orders, so the code contradicts its
documentation.) -/
theorem C1_get_futures_open_orders_raises_on_blank_symbol
    (env : CryptoTrade.TradeEnv) :
    CryptoTrade.get_futures_open_orders env "" "binance" =
      (.raises (.typeError "argument of type 'NoneType' is not iterable"), []) ∧
    CryptoTrade.get_futures_open_orders env "   " "binance" =
      (.raises (.typeError "argument of type 'NoneType' is not iterable"), []) := by
  have hb : pyBlank "binance" = false := by decide
  have h0 : pyBlank "" = true := by decide
  have hw : pyBlank "   " = true := by decide
  constructor <;>
    simp [CryptoTrade.get_futures_open_orders, hb, h0, hw]

/-! ## C2 -/

/-- A news environment in which every keyword search fails. -/
def newsEnvAllFail : MarketNews.NewsEnv :=
  { search := fun _ _ => .res
      { status := "error", error_message := some "API请求失败，状态码: 500" },
    now := 0 }

/-- C2 counterexample: the claim says every `status=error` result has
`error_message` and **no** `data`; but when all keyword searches fail,
`batch_search_market_news` (the very lines the claim cites) returns an
error result carrying BOTH `error_message` and `data`. -/
theorem C2_counterexample :
    (MarketNews.batch_search_market_news newsEnvAllFail ["BTC"] 10).status
        = "error" ∧
    ((MarketNews.batch_search_market_news newsEnvAllFail ["BTC"] 10
        ).error_message).isSome = true ∧
    ((MarketNews.batch_search_market_news newsEnvAllFail ["BTC"] 10
        ).data).isSome = true :=
  ⟨rfl, rfl, rfl⟩

/-- Exactly-one-of-`data`/`error_message` for `get_ticker_data`. -/
lemma ticker_exclusivity (env : CryptoMarket.TickerEnv) (s e : String) :
    ((CryptoMarket.get_ticker_data env s e).1.status = "success" →
      (CryptoMarket.get_ticker_data env s e).1.data.isSome ∧
      (CryptoMarket.get_ticker_data env s e).1.error_message = none) ∧
    ((CryptoMarket.get_ticker_data env s e).1.status = "error" →
      (CryptoMarket.get_ticker_data env s e).1.error_message.isSome ∧
      (CryptoMarket.get_ticker_data env s e).1.data = none) := by
  unfold CryptoMarket.get_ticker_data
  dsimp only
  split
  · simp
  · split
    · simp
    · split <;> [skip; split] <;> simp [*] <;> split <;> simp

/-- Exactly-one-of-`data`/`error_message` for `get_orderbook_data`. -/
lemma orderbook_exclusivity (env : CryptoMarket.OrderBookEnv) (s e : String)
    (l : ℤ) :
    ((CryptoMarket.get_orderbook_data env s e l).1.status = "success" →
      (CryptoMarket.get_orderbook_data env s e l).1.data.isSome ∧
      (CryptoMarket.get_orderbook_data env s e l).1.error_message = none) ∧
    ((CryptoMarket.get_orderbook_data env s e l).1.status = "error" →
      (CryptoMarket.get_orderbook_data env s e l).1.error_message.isSome ∧
      (CryptoMarket.get_orderbook_data env s e l).1.data = none) := by
  unfold CryptoMarket.get_orderbook_data
  dsimp only
  split
  · simp
  · split
    · simp
    · split
      · simp
      · split
        · simp
        · split <;> [skip; split] <;> simp [*] <;> split <;> simp

/-- `get_trades_data` populates `error` (not `error_message`) on failure. -/
lemma trades_fields (env : CryptoMarket.TradesEnv) (s e : String) (l : ℤ) :
    ((CryptoMarket.get_trades_data env s e l).1.status = "success" →
      (CryptoMarket.get_trades_data env s e l).1.data.isSome ∧
      (CryptoMarket.get_trades_data env s e l).1.error_message = none ∧
      (CryptoMarket.get_trades_data env s e l).1.error = none) ∧
    ((CryptoMarket.get_trades_data env s e l).1.status = "error" →
      (CryptoMarket.get_trades_data env s e l).1.error.isSome ∧
      (CryptoMarket.get_trades_data env s e l).1.error_message = none ∧
      (CryptoMarket.get_trades_data env s e l).1.data = none) := by
  unfold CryptoMarket.get_trades_data
  dsimp only
  split <;> [skip; split] <;> simp [*]

/-- On the non-validation path, a `status="error"` result of
`batch_search_market_news` carries both `error_message` and `data`. -/
lemma batch_error_carries_both (env : MarketNews.NewsEnv)
    (kws : List String) (p : ℤ)
    (hv : MarketNews.validKeywords kws ≠ []) :
    (MarketNews.batch_search_market_news env kws p).status = "error" →
      (MarketNews.batch_search_market_news env kws p).error_message.isSome ∧
      (MarketNews.batch_search_market_news env kws p).data.isSome := by
  have hk : ¬ (kws = []) := by
    rintro rfl
    exact hv rfl
  unfold MarketNews.batch_search_market_news
  dsimp only
  rw [if_neg hk, if_neg hv]
  repeat' split <;> simp_all

/-- C2 (amended): every success result has `data` and no `error_message`,
and every error result has `error_message` and no `data`, EXCEPT:
`batch_search_market_news`'s error result on the non-validation path (all
keyword searches failed) carries both `data` and `error_message`, and
`get_trades_data`'s error result carries an `error` field instead of
`error_message` (and no `data`). -/
theorem C2_result_exclusivity_amended :
    (∀ (env : CryptoMarket.TickerEnv) (s e : String),
      ((CryptoMarket.get_ticker_data env s e).1.status = "success" →
        (CryptoMarket.get_ticker_data env s e).1.data.isSome ∧
        (CryptoMarket.get_ticker_data env s e).1.error_message = none) ∧
      ((CryptoMarket.get_ticker_data env s e).1.status = "error" →
        (CryptoMarket.get_ticker_data env s e).1.error_message.isSome ∧
        (CryptoMarket.get_ticker_data env s e).1.data = none)) ∧
    (∀ (env : CryptoMarket.OrderBookEnv) (s e : String) (l : ℤ),
      ((CryptoMarket.get_orderbook_data env s e l).1.status = "success" →
        (CryptoMarket.get_orderbook_data env s e l).1.data.isSome ∧
        (CryptoMarket.get_orderbook_data env s e l).1.error_message = none) ∧
      ((CryptoMarket.get_orderbook_data env s e l).1.status = "error" →
        (CryptoMarket.get_orderbook_data env s e l).1.error_message.isSome ∧
        (CryptoMarket.get_orderbook_data env s e l).1.data = none)) ∧
    (∀ (env : CryptoMarket.TradesEnv) (s e : String) (l : ℤ),
      ((CryptoMarket.get_trades_data env s e l).1.status = "success" →
        (CryptoMarket.get_trades_data env s e l).1.data.isSome ∧
        (CryptoMarket.get_trades_data env s e l).1.error_message = none ∧
        (CryptoMarket.get_trades_data env s e l).1.error = none) ∧
      ((CryptoMarket.get_trades_data env s e l).1.status = "error" →
        (CryptoMarket.get_trades_data env s e l).1.error.isSome ∧
        (CryptoMarket.get_trades_data env s e l).1.error_message = none ∧
        (CryptoMarket.get_trades_data env s e l).1.data = none)) ∧
    (∀ (env : MarketNews.NewsEnv) (kws : List String) (p : ℤ),
      MarketNews.validKeywords kws ≠ [] →
      (MarketNews.batch_search_market_news env kws p).status = "error" →
        (MarketNews.batch_search_market_news env kws p).error_message.isSome ∧
        (MarketNews.batch_search_market_news env kws p).data.isSome) :=
  ⟨ticker_exclusivity, orderbook_exclusivity, trades_fields,
    batch_error_carries_both⟩

/-- A stub upstream ticker object. -/
def tickerStub : CryptoMarket.Ticker :=
  { last := .null, bid := .null, ask := .null, high := .null, low := .null,
    openPrice := .null, close := .null, baseVolume := .null,
    quoteVolume := .null, change := .null, percentage := .null,
    timestamp := .null, datetime := .null }

/-- A ticker environment whose exchange accepts the fetch. -/
def tickerEnvOk : CryptoMarket.TickerEnv :=
  { fetch_ticker := fun _ => .ok tickerStub, now := 0 }

/-- Witness for C2 (amended) at concrete inputs. -/
theorem C2_amended_witness :
    ((CryptoMarket.get_ticker_data tickerEnvOk "BTC/USDT" "binance").1.data.isSome ∧
     (CryptoMarket.get_ticker_data tickerEnvOk "BTC/USDT"
       "binance").1.error_message = none) ∧
    ((MarketNews.batch_search_market_news newsEnvAllFail
       ["BTC"] 10).error_message.isSome ∧
     (MarketNews.batch_search_market_news newsEnvAllFail ["BTC"] 10).data.isSome) :=
  ⟨(C2_result_exclusivity_amended.1 tickerEnvOk "BTC/USDT" "binance").1 rfl,
   C2_result_exclusivity_amended.2.2.2 newsEnvAllFail ["BTC"] 10 (by decide) rfl⟩

/-! ## C3 -/

/-- A ticker environment whose exchange call fails. -/
def tickerEnvFail : CryptoMarket.TickerEnv :=
  { fetch_ticker := fun _ => .error (.other "network unreachable"), now := 0 }

/-- C3 counterexample: the claim says `metadata` is present and non-empty on
every result, including input-validation failures of `get_ticker_data`;
but the validation-failure result of `get_ticker_data` with an empty symbol
has no `metadata` key at all (lines 113-124). -/
theorem C3_counterexample :
    (CryptoMarket.get_ticker_data tickerEnvFail "" "binance").1.metadata = none :=
  rfl

/-- `get_trades_data` never attaches a `metadata` key, not even on its
success path (it uses top-level `exchange`/`symbol`/`timestamp` keys
instead). -/
lemma trades_no_metadata (env : CryptoMarket.TradesEnv) (s e : String)
    (l : ℤ) : (CryptoMarket.get_trades_data env s e l).1.metadata = none := by
  unfold CryptoMarket.get_trades_data
  dsimp only
  split <;> [skip; split] <;> simp [*]

/-- C3 (amended): the claim's cited instance `get_ticker_data` attaches a
present and non-empty `metadata` on every success result and every
caught-exception error result, but the results of its input-validation
checks carry no `metadata` at all; and the claimed program-wide
"metadata always present" invariant fails even away from validation paths —
every result of `get_trades_data`, its success results included, carries no
`metadata`. -/
theorem C3_metadata_amended :
    (∀ (env : CryptoMarket.TickerEnv) (s e : String),
      (pyBlank s = true ∨ pyBlank e = true →
        (CryptoMarket.get_ticker_data env s e).1.metadata = none) ∧
      (pyBlank s = false → pyBlank e = false →
        ∃ m, (CryptoMarket.get_ticker_data env s e).1.metadata = some m ∧
          m.nonempty)) ∧
    (∀ (env : CryptoMarket.TradesEnv) (s e : String) (l : ℤ),
      (CryptoMarket.get_trades_data env s e l).1.metadata = none) := by
  refine ⟨?_, trades_no_metadata⟩
  intro env s e
  constructor
  · intro h
    unfold CryptoMarket.get_ticker_data
    by_cases hs : pyBlank s = true
    · simp [hs]
    · rcases h with h | h
      · exact absurd h hs
      · simp [hs, h]
  · intro hs he
    unfold CryptoMarket.get_ticker_data
    simp only [hs, he, Bool.false_eq_true, if_false]
    split <;> [skip; split]
    · rename_i ex heq
      cases ex <;> simp [Json.nonempty]
    · rename_i ex heq
      cases ex <;> simp [Json.nonempty]
    · simp [Json.nonempty]

/-- A trades environment whose exchange rejects the fetch. -/
def tradesEnvFail : CryptoMarket.TradesEnv :=
  { fetch_trades := fun _ _ =>
      .error (.other "binance does not have market symbol"),
    strftime := fun _ => "", now := 0 }

/-- Witness for C3 (amended) at concrete inputs. -/
theorem C3_amended_witness :
    (CryptoMarket.get_ticker_data tickerEnvFail "" "binance").1.metadata = none ∧
    (∃ m, (CryptoMarket.get_ticker_data tickerEnvOk "BTC/USDT"
      "binance").1.metadata = some m ∧ m.nonempty) ∧
    (CryptoMarket.get_trades_data tradesEnvFail "BTC/USDT" "binance"
      10).1.metadata = none :=
  ⟨(C3_metadata_amended.1 tickerEnvFail "" "binance").1 (Or.inl (by decide)),
   (C3_metadata_amended.1 tickerEnvOk "BTC/USDT" "binance").2 (by decide)
     (by decide),
   C3_metadata_amended.2 tradesEnvFail "BTC/USDT" "binance" 10⟩

/-! ## C4 -/

/-- C4 counterexample: the claim says calling a tool with an empty required
string parameter returns `status=error` with no external call, citing
`get_trades_data` in particular; but `get_trades_data` performs no input
validation: with an empty symbol and a supported exchange it issues the
external `fetch_trades` call (the call count is 1, not 0). -/
theorem C4_counterexample :
    (CryptoMarket.get_trades_data tradesEnvFail "" "binance" 10).2 = 1 :=
  rfl

/-- C4 (amended): the tools implementing the validation pattern
(`get_ticker_data`, `get_orderbook_data`) return `status=error` and perform
no external call when a required string parameter is blank;
`get_trades_data` however performs no input validation: a blank
`exchange_name` still yields `status=error` with no external call (the
unsupported-exchange check raises before any network operation), but a
blank `symbol` with a supported exchange proceeds to the external
`fetch_trades` call. -/
theorem C4_blank_param_amended :
    (∀ (env : CryptoMarket.TickerEnv) (s e : String),
      pyBlank s = true ∨ pyBlank e = true →
      (CryptoMarket.get_ticker_data env s e).1.status = "error" ∧
      (CryptoMarket.get_ticker_data env s e).2 = 0) ∧
    (∀ (env : CryptoMarket.OrderBookEnv) (s e : String) (l : ℤ),
      pyBlank s = true ∨ pyBlank e = true →
      (CryptoMarket.get_orderbook_data env s e l).1.status = "error" ∧
      (CryptoMarket.get_orderbook_data env s e l).2 = 0) ∧
    (∀ (env : CryptoMarket.TradesEnv) (s : String) (l : ℤ),
      (CryptoMarket.get_trades_data env s "" l).1.status = "error" ∧
      (CryptoMarket.get_trades_data env s "" l).2 = 0) ∧
    (∀ (env : CryptoMarket.TradesEnv) (l : ℤ),
      (CryptoMarket.get_trades_data env "" "binance" l).2 = 1) := by
  refine ⟨?_, ?_, ?_, ?_⟩
  · intro env s e h
    unfold CryptoMarket.get_ticker_data
    by_cases hs : pyBlank s = true
    · simp [hs]
    · rcases h with h | h
      · exact absurd h hs
      · simp [hs, h]
  · intro env s e l h
    unfold CryptoMarket.get_orderbook_data
    by_cases hs : pyBlank s = true
    · simp [hs]
    · rcases h with h | h
      · exact absurd h hs
      · simp [hs, h]
  · intro env s l
    unfold CryptoMarket.get_trades_data
    have h : CryptoMarket.getExchange "" =
        .error (.valueError (CryptoMarket.unsupportedMsg "")) := rfl
    rw [h]
    exact ⟨rfl, rfl⟩
  · intro env l
    unfold CryptoMarket.get_trades_data
    have h : CryptoMarket.getExchange "binance" = .ok () := rfl
    rw [h]
    cases hf : env.fetch_trades "" l <;> simp

/-- Witness for C4 (amended) at concrete inputs. -/
theorem C4_amended_witness :
    ((CryptoMarket.get_ticker_data tickerEnvOk "" "binance").1.status =
        "error" ∧
     (CryptoMarket.get_ticker_data tickerEnvOk "" "binance").2 = 0) ∧
    (CryptoMarket.get_trades_data tradesEnvFail "" "binance" 10).2 = 1 :=
  ⟨C4_blank_param_amended.1 tickerEnvOk "" "binance" (Or.inl (by decide)),
   C4_blank_param_amended.2.2.2 tradesEnvFail 10⟩

/-! ## C5 -/

/-- C5 counterexample: the claim says `place_spot_order` with a symbol
missing the `'/'` delimiter returns `status=error` naming the expected
format and places no order; but the function never checks for `'/'`: with
valid credentials the call succeeds and the order reaches the exchange
(`load_markets` followed by `create_limit_order("BTCUSDT", ...)`). -/
theorem C5_counterexample :
    (CryptoTrade.place_spot_order tradeEnvOk "BTCUSDT" "buy" 1 50000
      "binance").1.status = "success" ∧
    (CryptoTrade.place_spot_order tradeEnvOk "BTCUSDT" "buy" 1 50000
      "binance").2 =
      [.loadMarkets, .createLimitOrder "BTCUSDT" "buy" 1 50000] :=
  ⟨rfl, rfl⟩

/-- C5 (amended): `place_spot_order` performs no delimiter validation: only
a blank symbol produces the error message naming the `'BTC/USDT'` format
(with no exchange call); a non-blank symbol without `'/'` passes validation
and, with credentials configured, the function contacts the exchange and
submits the order.  The claimed delimiter check exists only for futures
symbols: `place_futures_order` on a symbol missing `':'` returns a
format-naming error with no exchange call. -/
theorem C5_no_delimiter_check_amended :
    (∀ (env : CryptoTrade.TradeEnv) (s : String) (amount price : ℚ),
      pyBlank s = true →
      CryptoTrade.place_spot_order env s "buy" amount price "binance" =
        ({ status := "error",
           error_message :=
             some "交易对符号不能为空，请提供如'BTC/USDT'格式的交易对" }, [])) ∧
    (∀ (env : CryptoTrade.TradeEnv) (amount price : ℚ),
      0 < amount → 0 < price → env.api_key ≠ "" → env.secret ≠ "" →
      env.load_markets = .ok () →
      (CryptoTrade.place_spot_order env "BTCUSDT" "buy" amount price
        "binance").2 =
        [.loadMarkets, .createLimitOrder "BTCUSDT" "buy" amount price]) ∧
    (∀ (env : CryptoTrade.TradeEnv) (side : String) (amount price : ℚ)
        (e s : String),
      pyBlank s = false → pyCharIn ':' s = false →
      CryptoTrade.place_futures_order env s side amount price e =
        ({ status := "error",
           error_message :=
             some "交易对符号格式错误，请提供如'BTC/USDT:USDT'或'BTC/USDT:BTC'格式的交易对" },
         [])) := by
  refine ⟨?_, ?_, ?_⟩
  · intro env s amount price h
    unfold CryptoTrade.place_spot_order
    simp [h]
  · intro env amount price hm hp hk hs hl
    have h1 : pyBlank "BTCUSDT" = false := by decide
    have h2 : pyLowerStr (pyStripStr "buy") = "buy" := by decide
    have h3 : pyLowerStr (pyStripStr "limit") = "limit" := by decide
    have h4 : pyBlank "binance" = false := by decide
    have h5 : pyLowerStr (pyLowerStr (pyStripStr "binance")) = "binance" := by
      decide
    have h6 : pyUpperStr (pyStripStr "BTCUSDT") = "BTCUSDT" := by decide
    unfold CryptoTrade.place_spot_order CryptoTrade.getExchange
    simp only [h1, h2, h3, h4, h5, h6, hm.not_le, hp.not_le, hk, hs, hl,
      CryptoTrade.SUPPORTED_EXCHANGES]
    norm_num
    cases hc : env.create_limit_order "BTCUSDT" "buy" amount price <;>
      simp [hc]
  · intro env side amount price e s hb hc
    unfold CryptoTrade.place_futures_order
    simp [hb, hc]

/-- Witness for C5 (amended) at concrete inputs. -/
theorem C5_amended_witness :
    CryptoTrade.place_spot_order tradeEnvOk "" "buy" 1 1 "binance" =
      ({ status := "error",
         error_message :=
           some "交易对符号不能为空，请提供如'BTC/USDT'格式的交易对" }, []) ∧
    (CryptoTrade.place_spot_order tradeEnvOk "BTCUSDT" "buy" 1 50000
      "binance").2 =
      [.loadMarkets, .createLimitOrder "BTCUSDT" "buy" 1 50000] ∧
    CryptoTrade.place_futures_order tradeEnvOk "BTCUSDT" "open_long" 1 50000
      "binance" =
      ({ status := "error",
         error_message :=
           some "交易对符号格式错误，请提供如'BTC/USDT:USDT'或'BTC/USDT:BTC'格式的交易对" },
       []) :=
  ⟨C5_no_delimiter_check_amended.1 tradeEnvOk "" 1 1 (by decide),
   C5_no_delimiter_check_amended.2.1 tradeEnvOk 1 50000 (by norm_num)
     (by norm_num) (by decide) (by decide) rfl,
   C5_no_delimiter_check_amended.2.2 tradeEnvOk "open_long" 1 50000 "binance"
     "BTCUSDT" (by decide) (by decide)⟩

/-! ## C6 -/

/-- A macro-news environment with a reachable endpoint returning an empty
data list. -/
def macroResponseOk : MarketNews.MacroResponse :=
  { status_code := 200, json := .ok (.obj [("data", .arr [])]) }

def macroEnvOk : MarketNews.MacroEnv :=
  { http_get := .ok macroResponseOk,
    max_time_str := "2026-10-12 00:00:00", now := 0 }

/-- An order-book environment (never reached in the C6 scenarios). -/
def orderBookEnvStub : CryptoMarket.OrderBookEnv :=
  { fetch_order_book := fun _ _ => .error (.other "unused"), now := 0 }

/-- C6 counterexample: the claim says `get_macro_data` with a limit outside
1-100 returns `status=error`; but the code silently replaces the
out-of-range limit with the default 50 and proceeds with the request — with
a reachable endpoint, `limit=150` yields `status=success`. -/
theorem C6_counterexample :
    (MarketNews.get_macro_data macroEnvOk 150).1.status = "success" :=
  rfl

/-- C6 (amended): `get_orderbook_data` rejects a depth limit above 100
(e.g. 150) with `status=error` and no exchange call; `get_macro_data` does
NOT reject an out-of-range limit — it replaces it with the default 50, so
the call behaves exactly like `limit=50` (including contacting the
endpoint). -/
theorem C6_bounded_limit_amended :
    (∀ (env : CryptoMarket.OrderBookEnv) (s e : String) (l : ℤ), 100 < l →
      (CryptoMarket.get_orderbook_data env s e l).1.status = "error" ∧
      (CryptoMarket.get_orderbook_data env s e l).2 = 0) ∧
    (∀ (env : MarketNews.MacroEnv) (l : ℤ), l < 1 ∨ 100 < l →
      MarketNews.get_macro_data env l = MarketNews.get_macro_data env 50) := by
  constructor
  · intro env s e l hl
    unfold CryptoMarket.get_orderbook_data
    have h1 : ¬ l ≤ 0 := by omega
    by_cases hs : pyBlank s = true
    · simp [hs]
    · by_cases he : pyBlank e = true
      · simp [hs, he]
      · simp [hs, he, h1, hl]
  · intro env l hl
    have h : ¬ (1 ≤ l ∧ l ≤ 100) := by omega
    unfold MarketNews.get_macro_data
    rw [if_pos h, if_neg (by norm_num : ¬ ¬ ((1:ℤ) ≤ 50 ∧ (50:ℤ) ≤ 100))]

/-- Witness for C6 (amended) at concrete inputs. -/
theorem C6_amended_witness :
    ((CryptoMarket.get_orderbook_data orderBookEnvStub "BTC/USDT" "binance"
        150).1.status = "error" ∧
     (CryptoMarket.get_orderbook_data orderBookEnvStub "BTC/USDT" "binance"
        150).2 = 0) ∧
    MarketNews.get_macro_data macroEnvOk 150 =
      MarketNews.get_macro_data macroEnvOk 50 :=
  ⟨C6_bounded_limit_amended.1 orderBookEnvStub "BTC/USDT" "binance" 150
     (by norm_num),
   C6_bounded_limit_amended.2 macroEnvOk 150 (by norm_num)⟩

/-! ## C8 -/

lemma pySubOpt_ne_zeroDiv (a b : Option ℚ) :
    CryptoMarket.pySubOpt a b ≠ .error .zeroDivisionError := by
  cases a <;> cases b <;> simp [CryptoMarket.pySubOpt]

lemma pyMax_ne_zeroDiv (l : List ℚ) :
    pyMax l ≠ .error .zeroDivisionError := by
  cases l <;> simp [pyMax]

lemma pyMin_ne_zeroDiv (l : List ℚ) :
    pyMin l ≠ .error .zeroDivisionError := by
  cases l <;> simp [pyMin]

lemma pyDiv_ne_zeroDiv (a b : ℚ) (hb : b ≠ 0) :
    pyDiv a b ≠ .error .zeroDivisionError := by
  simp [pyDiv, hb]

lemma guarded_pct_ne_zeroDiv (x : ℚ) (b : Option ℚ) (hb : b ≠ some 0) :
    (CryptoMarket.pyDivOptDen x b).map (· * 100) ≠
      .error .zeroDivisionError := by
  cases b with
  | none => simp [CryptoMarket.pyDivOptDen, Except.map]
  | some p =>
    have hp : p ≠ 0 := by
      intro h
      exact hb (by rw [h])
    simp [CryptoMarket.pyDivOptDen, pyDiv, hp, Except.map]

/-- C8: derived percentage fields are zero-guarded.  For `get_kline_data`:
the summary computation is total (never raises, in particular never divides
by zero), and a zero first-candle open price yields
`price_change_percent = 0`.  For `get_open_interest_data`: the summary
computation never raises `ZeroDivisionError` for any upstream response
(its only possible exception is the `TypeError` arising from `None`
amounts), and a zero baseline open interest yields
`oi_change_percentage = 0`. -/
theorem C8_zero_guarded_percentages :
    (∀ klines : List CryptoMarket.Candle,
      ∃ r, CryptoMarket.klineSummary klines = .ok r) ∧
    (∀ (first : CryptoMarket.Candle) (rest : List CryptoMarket.Candle),
      first.openPrice = 0 →
      ∃ s, CryptoMarket.klineSummary (first :: rest) = .ok (some s) ∧
        s.price_change_percent = 0) ∧
    (∀ entries : List CryptoMarket.OIEntry,
      CryptoMarket.oiSummary entries ≠ .error .zeroDivisionError) ∧
    (∀ (first : CryptoMarket.OIEntry) (rest : List CryptoMarket.OIEntry)
        (s : CryptoMarket.OISummary),
      first.open_interest = some 0 →
      CryptoMarket.oiSummary (first :: rest) = .ok (some s) →
      s.oi_change_percentage = 0) := by
  refine ⟨?_, ?_, ?_, ?_⟩
  · intro klines
    cases klines with
    | nil => exact ⟨none, rfl⟩
    | cons first rest =>
      by_cases h : first.openPrice = 0
      · unfold CryptoMarket.klineSummary
        dsimp only
        rw [h]
        exact ⟨_, rfl⟩
      · unfold CryptoMarket.klineSummary pyDiv
        dsimp only
        rw [if_pos h, if_neg h]
        exact ⟨_, rfl⟩
  · intro first rest h
    unfold CryptoMarket.klineSummary
    dsimp only
    rw [h]
    exact ⟨_, rfl, rfl⟩
  · intro entries
    cases entries with
    | nil => simp [CryptoMarket.oiSummary]
    | cons first rest =>
      unfold CryptoMarket.oiSummary
      dsimp only
      split
      · rename_i hlen
        split
        · rename_i e heq
          intro hcontra
          injection hcontra with h
          subst h
          exact pySubOpt_ne_zeroDiv _ _ heq
        · rename_i oi_change hsub
          split
          · rename_i e heq
            intro hcontra
            injection hcontra with h
            subst h
            split at heq
            · rename_i hguard
              exact guarded_pct_ne_zeroDiv _ _ hguard heq
            · cases heq
          · rename_i pct hpct
            split
            · rename_i e heq
              intro hcontra
              injection hcontra with h
              subst h
              exact pyMax_ne_zeroDiv _ heq
            · rename_i mx hmx
              split
              · rename_i e heq
                intro hcontra
                injection hcontra with h
                subst h
                exact pyMin_ne_zeroDiv _ heq
              · rename_i mn hmn
                split
                · rename_i e heq
                  intro hcontra
                  injection hcontra with h
                  subst h
                  have hne : ((((first :: rest).filterMap
                      CryptoMarket.OIEntry.open_interest).length : ℚ)) ≠ 0 := by
                    have : 0 < ((first :: rest).filterMap
                        CryptoMarket.OIEntry.open_interest).length := by omega
                    exact_mod_cast Nat.pos_iff_ne_zero.mp this
                  exact pyDiv_ne_zeroDiv _ _ hne heq
                · simp
      · simp
  · intro first rest s h0 heq
    unfold CryptoMarket.oiSummary at heq
    dsimp only at heq
    rw [h0] at heq
    split at heq
    · split at heq
      · cases heq
      · rw [if_neg (by simp : ¬ ((some (0:ℚ) : Option ℚ) ≠ some 0))] at heq
        split at heq
        · cases heq
        · split at heq
          · cases heq
          · split at heq
            · cases heq
            · split at heq
              · cases heq
              · simp_all
                rw [← heq]
    · cases heq

/-- A candle whose open price is zero. -/
def candleZeroOpen : CryptoMarket.Candle :=
  { datetime := "2024-01-01 00:00:00", openPrice := 0, high := 2, low := 1,
    close := 3, volume := 4 }

/-- Open-interest records with a zero baseline. -/
def oiFirst : CryptoMarket.OIEntry :=
  { timestamp := .null, datetime := "2024-01-01 00:00:00",
    open_interest := some 0, open_interest_value := some 0 }

def oiSecond : CryptoMarket.OIEntry :=
  { timestamp := .null, datetime := "2024-01-01 01:00:00",
    open_interest := some 5, open_interest_value := some 6 }

/-- The summary `oiSummary [oiFirst, oiSecond]` evaluates to. -/
def oiWitnessSummary : CryptoMarket.OISummary :=
  { current_oi := some 5, current_oi_value := some 6, oi_change := 5 - 0,
    oi_change_percentage := 0, max_oi := max 0 5, min_oi := min 0 5,
    avg_oi := (0 + (5 + 0)) / 2,
    period_start := "2024-01-01 00:00:00", period_end := "2024-01-01 01:00:00" }

/-- Witness for C8 at concrete inputs. -/
theorem C8_witness :
    (∃ s, CryptoMarket.klineSummary [candleZeroOpen] = Except.ok (some s) ∧
      s.price_change_percent = 0) ∧
    oiWitnessSummary.oi_change_percentage = 0 :=
  ⟨C8_zero_guarded_percentages.2.1 candleZeroOpen [] rfl,
   C8_zero_guarded_percentages.2.2.2 oiFirst [oiSecond] oiWitnessSummary rfl
     rfl⟩

/-! ## C9 -/

/-- Characterization of the polling loop from an arbitrary start index:
a terminating run ends at the first successful attempt, and its trace is
`attempt, sleep 5, attempt, sleep 5, ..., attempt`. -/
lemma pollReturns_charact (env : ℕ → MarketNews.AttemptOutcome) (i : ℕ)
    (tr : List MarketNews.PollEvent) (d : List Json)
    (h : MarketNews.PollReturns env i tr d) :
    ∃ n, i ≤ n ∧ env n = .ok d ∧
      (∀ m, i ≤ m → m < n → ∃ msg, env m = .fail msg) ∧
      tr = ((List.range' i (n - i)).flatMap
        fun j => [.attempt j, .sleep 5]) ++ [.attempt n] := by
  induction h with
  | @done i d hok =>
    refine ⟨i, le_refl i, hok, fun m h1 h2 => absurd h1 (by omega), ?_⟩
    simp
  | @retry i msg tr d hfail htail ih =>
    obtain ⟨n, hin, hok, hfails, htr⟩ := ih
    refine ⟨n, by omega, hok, ?_, ?_⟩
    · intro m h1 h2
      rcases Nat.eq_or_lt_of_le h1 with h | h
      · exact ⟨msg, h ▸ hfail⟩
      · exact hfails m h h2
    · have hni : n - i = (n - (i + 1)) + 1 := by omega
      rw [htr, hni, List.range'_succ i (n - (i + 1)) 1]
      simp

/-- C9: the news-feed polling helper retries indefinitely on failure with a
fixed 5-second backoff: (1) every terminating run of the loop returns the
parsed news list of the first successful attempt, every earlier attempt
having failed, and the event trace interleaves exactly one `sleep 5` after
each failed attempt; (2) while every attempt fails, the loop never returns
— in particular it never returns an error result for a failed request. -/
theorem C9_polling_retries_indefinitely :
    (∀ (env : ℕ → MarketNews.AttemptOutcome) (tr : List MarketNews.PollEvent)
        (d : List Json), MarketNews.PollReturns env 0 tr d →
      ∃ n, env n = .ok d ∧ (∀ m, m < n → ∃ msg, env m = .fail msg) ∧
        tr = ((List.range n).flatMap
          fun j => [.attempt j, .sleep 5]) ++ [.attempt n]) ∧
    (∀ env : ℕ → MarketNews.AttemptOutcome,
      (∀ n, ∃ msg, env n = .fail msg) →
      ∀ tr d, ¬ MarketNews.PollReturns env 0 tr d) := by
  constructor
  · intro env tr d h
    obtain ⟨n, _, hok, hfails, htr⟩ := pollReturns_charact env 0 tr d h
    refine ⟨n, hok, fun m hm => hfails m (Nat.zero_le m) hm, ?_⟩
    simpa [List.range_eq_range'] using htr
  · intro env hall tr d h
    obtain ⟨n, _, hok, _, _⟩ := pollReturns_charact env 0 tr d h
    obtain ⟨msg, hfail⟩ := hall n
    rw [hok] at hfail
    cases hfail

/-- An attempt oracle that fails once, then succeeds. -/
def pollEnvW : ℕ → MarketNews.AttemptOutcome :=
  fun n => if n = 0 then .fail "Connection refused" else .ok [.str "flash"]

/-- Witness for C9 at a concrete run: one failure, one 5-second sleep, then
the successful attempt's payload is returned. -/
theorem C9_witness :
    ∃ n, pollEnvW n = .ok [Json.str "flash"] ∧
      (∀ m, m < n → ∃ msg, pollEnvW m = .fail msg) ∧
      [MarketNews.PollEvent.attempt 0, .sleep 5, .attempt 1] =
        ((List.range n).flatMap
          fun j => [.attempt j, .sleep 5]) ++ [.attempt n] :=
  C9_polling_retries_indefinitely.1 pollEnvW _ _
    (.retry rfl (.done rfl))

/-! ## C10 -/

/-- Flooring to `d` decimal digits never rounds up. -/
lemma floorToDigits_le (x : ℚ) (d : ℕ) :
    (⌊x * 10 ^ d⌋ : ℚ) / 10 ^ d ≤ x := by
  have h10 : (0:ℚ) < 10 ^ d := by positivity
  rw [div_le_iff₀ h10]
  exact Int.floor_le _

/-- `floorToPrecision` never rounds up. -/
lemma floorToPrecision_le (x : ℚ) (p : String) :
    CryptoTrade.floorToPrecision x p ≤ x := by
  unfold CryptoTrade.floorToPrecision
  split
  · exact floorToDigits_le x _
  · exact Int.floor_le x

/-- C10: `place_futures_order` floors (never rounds up) when converting
units to contracts.  For every environment with valid credentials, every
positive amount and price, and every market with positive `contractSize`
and a decimal amount precision, the contract count submitted to the
exchange equals `floor((amount/contractSize) * 10^d) / 10^d` where `d` is
the number of decimal digits of the amount precision; hence the submitted
contract count times `contractSize` never exceeds the requested amount, and
the submitted (floored) limit price never exceeds the requested price. -/
theorem C10_futures_order_floors (env : CryptoTrade.TradeEnv)
    (amount price cs : ℚ) (pa pp : String)
    (hamount : 0 < amount) (hprice : 0 < price) (hcs : 0 < cs)
    (hm : env.markets "BTC/USDT:USDT" =
      some { contractSize := cs, precision_amount := pa,
             precision_price := pp })
    (hk : env.api_key ≠ "") (hs : env.secret ≠ "")
    (hl : env.load_markets = .ok ())
    (hpa : pyCharIn '.' pa = true) :
    (CryptoTrade.place_futures_order env "BTC/USDT:USDT" "open_long" amount
      price "binance").2 =
      [.loadMarkets,
       .createLimitOrder "BTC/USDT:USDT" "buy"
         ((⌊(amount / cs) * 10 ^ (splitSeg1 '.' pa.toList).length⌋ : ℚ) /
           10 ^ (splitSeg1 '.' pa.toList).length)
         (CryptoTrade.floorToPrecision price pp)] ∧
    ((⌊(amount / cs) * 10 ^ (splitSeg1 '.' pa.toList).length⌋ : ℚ) /
      10 ^ (splitSeg1 '.' pa.toList).length) * cs ≤ amount ∧
    CryptoTrade.floorToPrecision price pp ≤ price := by
  refine ⟨?_, ?_, floorToPrecision_le price pp⟩
  · have h1 : pyBlank "BTC/USDT:USDT" = false := by decide
    have h2 : pyCharIn ':' "BTC/USDT:USDT" = true := by decide
    have h3 : pyLowerStr (pyStripStr "open_long") = "open_long" := by decide
    have h4 : pyLowerStr (pyStripStr "limit") = "limit" := by decide
    have h5 : pyBlank "binance" = false := by decide
    have h6 : pyLowerStr (pyLowerStr (pyStripStr "binance")) = "binance" := by
      decide
    have h7 : pyUpperStr (pyStripStr "BTC/USDT:USDT") = "BTC/USDT:USDT" := by
      decide
    have h8 : CryptoTrade.newSide "open_long" = "buy" := by decide
    have hfa : CryptoTrade.floorToPrecision (amount / cs) pa =
        (⌊(amount / cs) * 10 ^ (splitSeg1 '.' pa.toList).length⌋ : ℚ) /
          10 ^ (splitSeg1 '.' pa.toList).length := by
      unfold CryptoTrade.floorToPrecision
      rw [if_pos hpa]
    unfold CryptoTrade.place_futures_order CryptoTrade.getExchange
    simp only [h1, h2, h3, h4, h5, h6, h7, hamount.not_le, hprice.not_le,
      hk, hs, hl, hm, CryptoTrade.SUPPORTED_EXCHANGES]
    norm_num [pyDiv, hcs.ne', hfa, h8]
    cases hc : env.create_limit_order "BTC/USDT:USDT" "buy"
        ((⌊(amount / cs) * 10 ^ (splitSeg1 '.' pa.data).length⌋ : ℚ) /
          10 ^ (splitSeg1 '.' pa.data).length)
        (CryptoTrade.floorToPrecision price pp) <;>
      simp [hc, String.toList]
  · have hle := floorToDigits_le (amount / cs) (splitSeg1 '.' pa.toList).length
    calc ((⌊(amount / cs) * 10 ^ (splitSeg1 '.' pa.toList).length⌋ : ℚ) /
        10 ^ (splitSeg1 '.' pa.toList).length) * cs
        ≤ (amount / cs) * cs := by
          exact mul_le_mul_of_nonneg_right hle hcs.le
      _ = amount := div_mul_cancel₀ amount hcs.ne'

/-- A futures market entry: contract size 1/2, one decimal digit of
amount and price precision. -/
def futMarketW : CryptoTrade.FutMarket :=
  { contractSize := 1/2, precision_amount := "0.1", precision_price := "0.1" }

/-- A trading environment whose markets table holds `futMarketW`. -/
def tradeEnvFut : CryptoTrade.TradeEnv :=
  { tradeEnvOk with
    markets := fun s => if s = "BTC/USDT:USDT" then some futMarketW else none }

/-- Witness for C10 at concrete inputs: amount 3/4, price 7/2, contract
size 1/2, precision `"0.1"` (one decimal digit). -/
theorem C10_witness :
    ((0:ℚ) < 3/4 ∧ (0:ℚ) < 7/2 ∧ (0:ℚ) < 1/2) ∧
    ((CryptoTrade.place_futures_order tradeEnvFut "BTC/USDT:USDT" "open_long"
        (3/4) (7/2) "binance").2 =
      [.loadMarkets,
       .createLimitOrder "BTC/USDT:USDT" "buy"
         ((⌊((3:ℚ)/4 / (1/2)) * 10 ^ (splitSeg1 '.' "0.1".toList).length⌋ : ℚ) /
           10 ^ (splitSeg1 '.' "0.1".toList).length)
         (CryptoTrade.floorToPrecision (7/2) "0.1")] ∧
     ((⌊((3:ℚ)/4 / (1/2)) * 10 ^ (splitSeg1 '.' "0.1".toList).length⌋ : ℚ) /
       10 ^ (splitSeg1 '.' "0.1".toList).length) * (1/2) ≤ 3/4 ∧
     CryptoTrade.floorToPrecision (7/2) "0.1" ≤ 7/2) :=
  ⟨⟨by norm_num, by norm_num, by norm_num⟩,
   C10_futures_order_floors tradeEnvFut (3/4) (7/2) (1/2) "0.1" "0.1"
     (by norm_num) (by norm_num) (by norm_num) rfl (by decide) (by decide)
     rfl (by decide)⟩
